import Mathlib

/-!
Verification of `core/static/app.js`.

A shallow embedding of the browser script that bridges the loan forms and the
JSON backend: form serialisation (`getFormData`), the fetch wrapper (`apiCall`)
with its renderer (`showResponse`), the view-loans submit handler and the tab
click handler.

Browser builtins that the script calls (`parseFloat`, `fetch`, `JSON.parse`,
`JSON.stringify`, number formatting) are not code of the script.  They are taken
as parameters of the embedded functions; `ecmaParseFloat` additionally gives the
ECMAScript definition of `parseFloat` so that concrete strings can be evaluated.
-/

namespace Alemeno

/-! ## Numbers and `parseFloat` -/

/-- A JavaScript number as far as the script can tell numbers apart: NaN, a
signed infinity, or a signed decimal `mantissa * 10 ^ exponent` (the exact value
denoted by a decimal literal; rounding to a double is not represented). -/
inductive JSNumber where
  | nan
  | infinity (negative : Bool)
  | finite (negative : Bool) (mantissa : Nat) (exponent : Int)
deriving DecidableEq

/-- The global `isNaN` applied to a number. -/
def JSNumber.isNaN : JSNumber → Bool
  | .nan => true
  | _ => false

/-- Code points removed by `TrimString` (ECMAScript WhiteSpace and
LineTerminator). -/
def isStrWhiteSpaceChar (c : Char) : Bool :=
  [0x09, 0x0A, 0x0B, 0x0C, 0x0D, 0x20, 0xA0, 0x1680, 0x2000, 0x2001, 0x2002,
   0x2003, 0x2004, 0x2005, 0x2006, 0x2007, 0x2008, 0x2009, 0x200A, 0x2028,
   0x2029, 0x202F, 0x205F, 0x3000, 0xFEFF].contains c.toNat

/-- Value of a run of decimal digits. -/
def digitsToNat (ds : List Char) : Nat :=
  ds.foldl (fun n c => 10 * n + (c.toNat - 48)) 0

/-- The ExponentPart at the head of `cs` (`e` or `E`, an optional sign, at least
one digit); `0` when `cs` does not start with one. -/
def parseExponent (cs : List Char) : Int :=
  match cs with
  | [] => 0
  | e :: rest =>
    if e = 'e' ∨ e = 'E' then
      match rest with
      | '+' :: r =>
        if (r.takeWhile Char.isDigit).isEmpty then 0
        else Int.ofNat (digitsToNat (r.takeWhile Char.isDigit))
      | '-' :: r =>
        if (r.takeWhile Char.isDigit).isEmpty then 0
        else - Int.ofNat (digitsToNat (r.takeWhile Char.isDigit))
      | r =>
        if (r.takeWhile Char.isDigit).isEmpty then 0
        else Int.ofNat (digitsToNat (r.takeWhile Char.isDigit))
    else 0

/-- The longest prefix of `cs` that is a StrUnsignedDecimalLiteral, evaluated;
NaN when no prefix is one. -/
def parseUnsigned (negative : Bool) (cs : List Char) : JSNumber :=
  if "Infinity".toList.isPrefixOf cs then .infinity negative
  else
    let ip := cs.takeWhile Char.isDigit
    match cs.dropWhile Char.isDigit with
    | '.' :: r =>
      let fp := r.takeWhile Char.isDigit
      if ip.isEmpty && fp.isEmpty then .nan
      else .finite negative (digitsToNat (ip ++ fp))
            (parseExponent (r.dropWhile Char.isDigit) - Int.ofNat fp.length)
    | r => if ip.isEmpty then .nan else .finite negative (digitsToNat ip) (parseExponent r)

/-- ECMAScript `parseFloat`: trim leading white space, then evaluate the longest
prefix that is a StrDecimalLiteral, NaN when there is none. -/
def ecmaParseFloat (s : String) : JSNumber :=
  match s.toList.dropWhile isStrWhiteSpaceChar with
  | '+' :: r => parseUnsigned false r
  | '-' :: r => parseUnsigned true r
  | r => parseUnsigned false r

/-! ## FormSerializer: `getFormData` -/

/-- A value stored in the payload: the parsed number, or the string of the field
as it was. -/
inductive PayloadValue where
  | num (n : JSNumber)
  | str (s : String)
deriving DecidableEq

/-- The object `data`, read through its own properties; enumeration order is not
represented. -/
abbrev Payload := String → Option PayloadValue

/-- The object literal `{}`: no own property. -/
def Payload.empty : Payload := fun _ => none

/-- The assignment `data[key] = v` on the plain object `data`, for a number or a
string `v`.  Under the name `__proto__` the assignment runs the setter inherited
from `Object.prototype`, which ignores a value that is not an object: nothing is
stored.  Under every other name an own property is created or overwritten. -/
def Payload.set (data : Payload) (key : String) (v : PayloadValue) : Payload :=
  if key = "__proto__" then data
  else fun k => if k = key then some v else data k

/-- The entries of `new FormData(form)`, in iteration order, each a name and a
string value (the entries of every control other than a file input). -/
abbrev FormData := List (String × String)

/-- The callback of `formData.forEach` (lines 27-31):
`const num = parseFloat(val); data[key] = isNaN(num) ? val : num;`. -/
def storeField (parseFloat : String → JSNumber) (data : Payload)
    (entry : String × String) : Payload :=
  let num := parseFloat entry.2
  data.set entry.1 (if num.isNaN then .str entry.2 else .num num)

/-- The function `getFormData(form)` (lines 24-33). -/
def getFormData (parseFloat : String → JSNumber) (form : FormData) : Payload :=
  form.foldl (storeField parseFloat) Payload.empty

/-! ## ResponseRenderer and ApiClient -/

/-- The constant `API_BASE` (line 2). -/
def API_BASE : String := ""

/-- The element `output`: the two properties the script writes. -/
structure Output where
  textContent : String
  className : String
deriving DecidableEq

/-- The value handed to `showResponse`: a parsed response body, or the object
literal `{ error: 'Network/Server Error', details: ... }` built in the `catch`
clause (line 64). -/
inductive Shown (J : Type) where
  | json (data : J)
  | errorObject (details : String)
deriving DecidableEq

/-- The request handed to `fetch`: `API_BASE + endpoint` and the fields of
`opts`. -/
structure Request where
  url : String
  method : String
  headers : List (String × String)
  body : Option String
deriving DecidableEq

/-- The response fields that `apiCall` reads.  `contentType` is
`res.headers.get("content-type")` (`none` for `null`); `body` is the outcome of
consuming the body, either its text or the message of the error the read
rejects with. -/
structure Response where
  status : Nat
  statusText : String
  contentType : Option String
  body : Except String String

/-- The property `res.ok`: the status is in the range 200-299. -/
def Response.ok (res : Response) : Bool :=
  decide (200 ≤ res.status) && decide (res.status ≤ 299)

/-- The observable effects of a call, in the order they happen. -/
inductive Event (J : Type) where
  | fetch (req : Request)
  | text
  | consoleError (label : String) (text : String)
  | json
  | showResponse (data : Shown J) (isError : Bool)
deriving DecidableEq

/-- Whether an event is an invocation of `showResponse`. -/
def Event.isShow {J : Type} : Event J → Bool
  | .showResponse _ _ => true
  | _ => false

/-- The page state `apiCall` acts on: the output element and the record of
effects so far. -/
structure Page (J : Type) where
  output : Output
  events : List (Event J)

/-- Append an effect to the record. -/
def Page.log {J : Type} (pg : Page J) (e : Event J) : Page J :=
  { pg with events := pg.events ++ [e] }

/-- The browser builtins `apiCall` and `showResponse` rely on.  An error result
carries the `message` of the exception thrown (or of the rejection).
`B` is the type of request bodies, `J` the type of parsed JSON values. -/
structure Browser (B J : Type) where
  /-- The call `JSON.stringify(body)`. -/
  stringify : B → Except String String
  /-- The call `await fetch(url, opts)`. -/
  fetch : Request → Except String Response
  /-- The call `JSON.parse`, applied by `res.json()` to the body text. -/
  parse : String → Except String J
  /-- The call `JSON.stringify(data, null, 2)`. -/
  pretty : Shown J → String

/-- The function `showResponse(data, isError)` (lines 18-21). -/
def showResponse {B J : Type} (br : Browser B J) (data : Shown J) (isError : Bool)
    (pg : Page J) : Page J :=
  { output := { textContent := br.pretty data,
                className := if isError then "error" else "" },
    events := pg.events ++ [.showResponse data isError] }

/-- The method `s.includes(needle)`. -/
def includes (s needle : String) : Bool :=
  s.toList.tails.any (fun t => needle.toList.isPrefixOf t)

/-- The test `!contentType || !contentType.includes("application/json")`
(line 48). -/
def nonJsonResponse (contentType : Option String) : Bool :=
  match contentType with
  | none => true
  | some ct => ct.isEmpty || !includes ct "application/json"

/-- The line `if (body) opts.body = JSON.stringify(body);` (line 42): the body
field of `opts`. -/
def requestBody {B J : Type} (br : Browser B J) (body : Option B) :
    Except String (Option String) :=
  match body with
  | none => .ok none
  | some b =>
    match br.stringify b with
    | .ok s => .ok (some s)
    | .error err => .error err

/-- The request `fetch(API_BASE + endpoint, opts)` is called with. -/
def mkRequest (endpoint method : String) (reqBody : Option String) : Request :=
  { url := API_BASE ++ endpoint, method := method,
    headers := [("Content-Type", "application/json")], body := reqBody }

/-- The message of the error thrown at line 51. -/
def serverErrorMessage (res : Response) : String :=
  "Server Error (" ++ toString res.status ++ "): " ++ res.statusText

/-- The `try` block of `apiCall` (lines 38-62): either the value returned or the
message of the exception thrown, with the page state reached. -/
def apiCallTry {B J : Type} (br : Browser B J) (endpoint method : String)
    (body : Option B) (pg : Page J) : Except String (Option J) × Page J :=
  match requestBody br body with
  | .error err => (.error err, pg)
  | .ok reqBody =>
    let req := mkRequest endpoint method reqBody
    let pg1 := pg.log (.fetch req)
    match br.fetch req with
    | .error err => (.error err, pg1)
    | .ok res =>
      if nonJsonResponse res.contentType then
        let pg2 := pg1.log .text
        match res.body with
        | .error err => (.error err, pg2)
        | .ok text =>
          (.error (serverErrorMessage res), pg2.log (.consoleError "Non-JSON response:" text))
      else
        let pg2 := pg1.log .json
        match res.body.bind br.parse with
        | .error err => (.error err, pg2)
        | .ok data =>
          if !res.ok then (.ok none, showResponse br (.json data) true pg2)
          else (.ok (some data), showResponse br (.json data) false pg2)

/-- The function `apiCall(endpoint, method, body)` (lines 36-67): the value it
resolves to (`none` for `null`) and the page state afterwards. -/
def apiCall {B J : Type} (br : Browser B J) (endpoint method : String)
    (body : Option B) (pg : Page J) : Option J × Page J :=
  match apiCallTry br endpoint method body pg with
  | (.ok result, pg1) => (result, pg1)
  | (.error message, pg1) => (none, showResponse br (.errorObject message) true pg1)

/-- The effects a call added to a record that held `before` events. -/
def eventsSince {J : Type} (before : List (Event J)) (pg : Page J) : List (Event J) :=
  pg.events.drop before.length

/-! ## ListRenderer: the view-loans submit handler -/

/-- A loan record as the view-loans handler reads it: the four properties, each
a number of type `N`. -/
structure LoanRecord (N : Type) where
  loan_id : N
  loan_amount : N
  interest_rate : N
  monthly_installment : N
deriving DecidableEq

/-- The two number-to-string conversions of the template (lines 102-107):
`toStr` is the conversion a template literal applies to `${n}`,
`toLocaleString` is `n.toLocaleString()` in the browser's locale. -/
structure NumberFormat (N : Type) where
  toStr : N → String
  toLocaleString : N → String

/-- The template literal of lines 102-107 for one loan. -/
def loanItem {N : Type} (fmt : NumberFormat N) (loan : LoanRecord N) : String :=
  "\n                <div class=\"loan-item\">\n                    <div><b>Loan #"
    ++ fmt.toStr loan.loan_id
    ++ "</b> <span style=\"margin: 0 5px\">•</span> <span>₹"
    ++ fmt.toLocaleString loan.loan_amount
    ++ "</span></div>\n                    <div><span>"
    ++ fmt.toStr loan.interest_rate
    ++ "% Rate</span> <span style=\"margin: 0 5px\">•</span> <span>₹"
    ++ fmt.toLocaleString loan.monthly_installment
    ++ "/mo</span></div>\n                </div>\n            "

/-- The placeholder written at line 110. -/
def noLoansPlaceholder : String :=
  "<p style=\"color: #71717a; text-align: center;\">No active loans found</p>"

/-- Lines 96-111: the new `innerHTML` of the element `loans-list`, given the
value `apiCall` resolved to and the `innerHTML` before.  The value is `null` or
an array of loan records, the success shape of the endpoint; an array is truthy
also when it is empty.  `innerHTML` is a string and `+=` appends to it. -/
def renderLoansList {N : Type} (fmt : NumberFormat N)
    (loans : Option (List (LoanRecord N))) (_innerHTML : String) : String :=
  let cleared := ""
  match loans with
  | some ls =>
    if ls.length > 0 then ls.foldl (fun html loan => html ++ loanItem fmt loan) cleared
    else noLoansPlaceholder
  | none => cleared

/-- The state the view-loans handler acts on: the page of `apiCall` and the
`innerHTML` of the element `loans-list`. -/
structure ViewState (N : Type) where
  page : Page (List (LoanRecord N))
  loansList : String

/-- The submit handler of `view-form` (lines 91-112); `custId` is
`e.target.customer_id.value`. -/
def viewFormSubmit {B N : Type} (br : Browser B (List (LoanRecord N)))
    (fmt : NumberFormat N) (custId : String) (st : ViewState N) : ViewState N :=
  let r := apiCall br ("/view-loans/" ++ custId) "GET" none st.page
  { page := r.2, loansList := renderLoansList fmt r.1 st.loansList }

/-! ## TabController: the tab click handler -/

/-- Which of the selectors `.tab` and `.panel` an element matches. -/
inductive Role where
  | tab
  | panel
  | other
deriving DecidableEq

/-- An element of the document: its role, its `id` attribute, its `data-tab`
attribute and whether its class list holds `active`. -/
structure Element where
  role : Role
  id : Option String
  dataTab : Option String
  active : Bool
deriving DecidableEq

/-- The elements of the document, in document order. -/
abbrev Document := List Element

/-- The loop `querySelectorAll(sel).forEach(x => x.classList.remove('active'))`
(lines 9-10) for the selector of role `r`. -/
def removeActive (r : Role) (doc : Document) : Document :=
  doc.map (fun e => if e.role = r then { e with active := false } else e)

/-- The call `classList.add('active')` on the element at position `i`. -/
def addActive : Nat → Document → Document
  | _, [] => []
  | 0, e :: es => { e with active := true } :: es
  | i + 1, e :: es => e :: addActive i es

/-- Position of the first element whose `id` attribute is `id`. -/
def firstWithId : Document → String → Option Nat
  | [], _ => none
  | e :: es, id => if e.id = some id then some 0 else (firstWithId es id).map (· + 1)

/-- The call `document.getElementById(id)`: the first element with that id; no
element has the empty id. -/
def getElementById (doc : Document) (id : String) : Option Nat :=
  if id.isEmpty then none else firstWithId doc id

/-- The argument of `getElementById` at line 13: `tab.dataset.tab` converted to
a string (`undefined` when the attribute is missing). -/
def datasetTab (tab : Element) : String :=
  tab.dataTab.getD "undefined"

/-- The click listener of the tab at position `i` (lines 8-14): the document
afterwards and the message of the error thrown, if any.  Only elements matching
`.tab` have the listener. -/
def tabClick (doc : Document) (i : Nat) : Document × Option String :=
  match doc[i]? with
  | none => (doc, none)
  | some tab =>
    if tab.role = Role.tab then
      let d1 := removeActive Role.tab doc
      let d2 := removeActive Role.panel d1
      let d3 := addActive i d2
      match getElementById d3 (datasetTab tab) with
      | none => (d3, some "Cannot read properties of null (reading \x27classList\x27)")
      | some j => (addActive j d3, none)
    else (doc, none)

/-- The attributes of an element the click listener never changes. -/
def Element.attrs (e : Element) : Role × Option String × Option String :=
  (e.role, e.id, e.dataTab)

/-- A sequence of clicks, each on the element at the given position. -/
def tabClicks (doc : Document) : List Nat → Document
  | [] => doc
  | i :: rest => tabClicks (tabClick doc i).1 rest

/-! ## Concrete inputs -/

/-- A page on which nothing has been rendered yet. -/
def blankPage (J : Type) : Page J :=
  { output := { textContent := "", className := "" }, events := [] }

/-- A flat JSON object with string values, as a list of its members. -/
abbrev FlatObject := List (String × String)

/-- Indented JSON text of a flat object, and of the error object of the `catch`
clause. -/
def prettyFlat : Shown FlatObject → String
  | .json members =>
    "\x7b\n" ++ ",\n".intercalate
      (members.map (fun m => "  \"" ++ m.1 ++ "\": \"" ++ m.2 ++ "\"")) ++ "\n\x7d"
  | .errorObject details =>
    "\x7b\n  \"error\": \"Network/Server Error\",\n  \"details\": \"" ++ details ++ "\"\n\x7d"

/-- A request body: a flat object, or an object that refers to itself, which
`JSON.stringify` rejects. -/
inductive SampleBody where
  | flat (o : FlatObject)
  | cyclic

/-- A sample backend: `/register` answers 200 with a JSON object,
`/create-loan` answers 400 with a JSON error object, `/check-eligibility`
answers 200 with JSON content-type and a malformed body, `/missing` answers 404
with an HTML page, `/dropped` answers 200 with an HTML content-type and a body
whose read fails, and any other request fails to connect. -/
def sampleApi : Browser SampleBody FlatObject where
  stringify := fun b =>
    match b with
    | .flat o => .ok (prettyFlat (.json o))
    | .cyclic => .error "Converting circular structure to JSON"
  fetch := fun req =>
    if req.url = "/register" then
      .ok ⟨200, "OK", some "application/json", .ok "customer"⟩
    else if req.url = "/create-loan" then
      .ok ⟨400, "Bad Request", some "application/json; charset=utf-8", .ok "invalid"⟩
    else if req.url = "/check-eligibility" then
      .ok ⟨200, "OK", some "application/json", .ok "<html>"⟩
    else if req.url = "/missing" then
      .ok ⟨404, "Not Found", some "text/html", .ok "<html>Not Found</html>"⟩
    else if req.url = "/dropped" then
      .ok ⟨200, "OK", some "text/html", .error "network error"⟩
    else .error "Failed to fetch"
  parse := fun text =>
    if text = "customer" then .ok [("customer_id", "1"), ("name", "Ann")]
    else if text = "invalid" then .ok [("error", "invalid")]
    else .error "Unexpected token < in JSON at position 0"
  pretty := prettyFlat

/-- Digits in reverse order with a comma after every third one. -/
def groupReversed : List Char → List Char
  | a :: b :: c :: d :: rest => a :: b :: c :: ',' :: groupReversed (d :: rest)
  | ds => ds

/-- Number formatting for whole numbers in an `en-US` browser: `toStr` gives the
decimal digits, `toLocaleString` groups them in threes with commas. -/
def wholeNumbers : NumberFormat Nat where
  toStr := fun n => toString n
  toLocaleString := fun n => String.mk (groupReversed (toString n).toList.reverse).reverse

/-- A sample record. -/
def sampleLoan : LoanRecord Nat :=
  { loan_id := 1, loan_amount := 50000, interest_rate := 9, monthly_installment := 4200 }

/-- Indented JSON text of a list of loans, and of the error object of the
`catch` clause. -/
def prettyLoans : Shown (List (LoanRecord Nat)) → String
  | .json [] => "[]"
  | .json loans =>
    "[\n" ++ ",\n".intercalate (loans.map (fun l =>
      "  \x7b\n    \"loan_id\": " ++ toString l.loan_id
        ++ ",\n    \"loan_amount\": " ++ toString l.loan_amount
        ++ ",\n    \"interest_rate\": " ++ toString l.interest_rate
        ++ ",\n    \"monthly_installment\": " ++ toString l.monthly_installment
        ++ "\n  \x7d")) ++ "\n]"
  | .errorObject details =>
    "\x7b\n  \"error\": \"Network/Server Error\",\n  \"details\": \"" ++ details ++ "\"\n\x7d"

/-- A sample backend for the view-loans form: customer 1 has the sample loan,
customer 2 has no loans, any other path answers 404 with an HTML page. -/
def sampleLoansApi : Browser SampleBody (List (LoanRecord Nat)) where
  stringify := fun _ => .ok ""
  fetch := fun req =>
    if req.url = "/view-loans/1" then
      .ok ⟨200, "OK", some "application/json", .ok "one"⟩
    else if req.url = "/view-loans/2" then
      .ok ⟨200, "OK", some "application/json", .ok "[]"⟩
    else .ok ⟨404, "Not Found", some "text/html", .ok "<html>Not Found</html>"⟩
  parse := fun text =>
    if text = "one" then .ok [sampleLoan]
    else if text = "[]" then .ok []
    else .error "Unexpected token < in JSON at position 0"
  pretty := prettyLoans

/-- A sample document: three tabs, the first one active, their three panels, and
the output element. -/
def sampleDocument : Document :=
  [ { role := .tab, id := none, dataTab := some "register", active := true },
    { role := .tab, id := none, dataTab := some "eligibility", active := false },
    { role := .tab, id := none, dataTab := some "view", active := false },
    { role := .panel, id := some "register", dataTab := none, active := true },
    { role := .panel, id := some "eligibility", dataTab := none, active := false },
    { role := .panel, id := some "view", dataTab := none, active := false },
    { role := .other, id := some "output", dataTab := none, active := false } ]

/-! ## Theorems: FormSerializer -/

/-- An assignment under one name leaves the value stored under any other name as
it is. -/
theorem Payload.set_other (data : Payload) (name key : String) (v : PayloadValue)
    (h : name ≠ key) : data.set name v key = data key := by
  unfold Payload.set
  by_cases hp : name = "__proto__"
  · simp [hp]
  · simp [hp, Ne.symm h]

/-- An assignment under a name other than `__proto__` stores the value under
that name. -/
theorem Payload.set_self (data : Payload) (key : String) (v : PayloadValue)
    (h : key ≠ "__proto__") : data.set key v key = some v := by
  simp [Payload.set, h]

/-- An assignment under the name `__proto__` changes no own property. -/
theorem Payload.set_proto (data : Payload) (v : PayloadValue) :
    data.set "__proto__" v = data := by
  simp [Payload.set]

/-- Fields visited later under other names leave the value stored under `key`
as it is. -/
theorem foldl_storeField_other (parseFloat : String → JSNumber) (key : String)
    (form : FormData) (data : Payload) (h : ∀ e ∈ form, e.1 ≠ key) :
    form.foldl (storeField parseFloat) data key = data key := by
  induction form generalizing data with
  | nil => rfl
  | cons e rest ih =>
    have hrest : ∀ x ∈ rest, x.1 ≠ key := fun x hx => h x (List.mem_cons_of_mem _ hx)
    have he : e.1 ≠ key := h e (List.mem_cons_self _ _)
    rw [List.foldl_cons, ih _ hrest]
    exact Payload.set_other data e.1 key _ he

/-- What the callback stores under the name of the field it visits, when that
name is not `__proto__`. -/
theorem storeField_self (parseFloat : String → JSNumber) (data : Payload)
    (key v : String) (h : key ≠ "__proto__") :
    storeField parseFloat data (key, v) key
      = some (if (parseFloat v).isNaN then .str v else .num (parseFloat v)) :=
  Payload.set_self data key _ h

/-- C1 as stated fails: the claim is about every field, and a field named
`__proto__` with the value `5` stores nothing.  The assignment of line 30 runs
the setter inherited from `Object.prototype`, so the payload has no own property
`__proto__` afterwards, neither the number 5 nor the string; the other fields of
the form are stored as usual. -/
theorem proto_field_not_stored :
    (ecmaParseFloat "5").isNaN = false
    ∧ storeField ecmaParseFloat Payload.empty ("__proto__", "5") "__proto__" = none
    ∧ getFormData ecmaParseFloat [("x", "1"), ("__proto__", "5")] "__proto__" = none
    ∧ getFormData ecmaParseFloat [("x", "1"), ("__proto__", "5")] "__proto__"
        ≠ some (.num (ecmaParseFloat "5"))
    ∧ getFormData ecmaParseFloat [("x", "1"), ("__proto__", "5")] "x"
        = some (.num (.finite false 1 0)) := by
  decide

/-- C1, amended: for a field `(key, v)` whose name is not `__proto__`, the
callback of `getFormData` stores under `key` the number `parseFloat(v)` when that
is not NaN and the string `v` itself otherwise, whatever `parseFloat` is; the
returned payload holds that value under `key` when no later field has the same
name; with the ECMAScript `parseFloat` the empty string is NaN and is stored as
the empty string, not as a number.  A field named `__proto__` leaves the payload
as it was. -/
theorem getFormData_coercion (parseFloat : String → JSNumber) (data : Payload)
    (before after : FormData) (key v : String) (hkey : key ≠ "__proto__") :
    storeField parseFloat data (key, v) key
        = some (if (parseFloat v).isNaN then .str v else .num (parseFloat v))
    ∧ ((∀ e ∈ after, e.1 ≠ key) →
        getFormData parseFloat (before ++ (key, v) :: after) key
          = some (if (parseFloat v).isNaN then .str v else .num (parseFloat v)))
    ∧ (ecmaParseFloat "").isNaN = true
    ∧ storeField ecmaParseFloat data (key, "") key = some (.str "")
    ∧ storeField parseFloat data ("__proto__", v) = data := by
  refine ⟨storeField_self parseFloat data key v hkey, ?_, by decide, ?_, ?_⟩
  · intro h
    unfold getFormData
    rw [List.foldl_append, List.foldl_cons, foldl_storeField_other parseFloat key after _ h]
    exact storeField_self parseFloat _ key v hkey
  · rw [storeField_self ecmaParseFloat data key "" hkey]
    have h0 : (ecmaParseFloat "").isNaN = true := by decide
    simp [h0]
  · exact Payload.set_proto data _

/-- C1 amended, at a concrete form: `age` is entered twice, the second time
empty; `amount` has trailing text. -/
theorem getFormData_coercion_witness :
    getFormData ecmaParseFloat
        ([("age", "30")] ++ ("amount", "12abc") :: [("age", "")]) "amount"
      = some (.num (.finite false 12 0))
    ∧ getFormData ecmaParseFloat
        ([("age", "30"), ("amount", "12abc")] ++ ("age", "") :: []) "age"
      = some (.str "") :=
  ⟨(getFormData_coercion ecmaParseFloat Payload.empty [("age", "30")]
      [("age", "")] "amount" "12abc" (by decide)).2.1 (by decide),
   (getFormData_coercion ecmaParseFloat Payload.empty
      [("age", "30"), ("amount", "12abc")] [] "age" "" (by decide)).2.1 (by decide)⟩

/-! ## Theorems: ApiClient -/

/-- The test of line 48 holds exactly when the header is absent or its value does
not contain `application/json`. -/
theorem nonJsonResponse_iff (contentType : Option String) :
    nonJsonResponse contentType = true
      ↔ contentType = none
        ∨ ∃ ct, contentType = some ct ∧ includes ct "application/json" = false := by
  cases contentType with
  | none => simp [nonJsonResponse]
  | some ct =>
    have hempty : ct.isEmpty = true → includes ct "application/json" = false := by
      intro h
      have hct : ct = "" := (String.isEmpty_iff ct).mp h
      subst hct
      decide
    simp only [nonJsonResponse, Bool.or_eq_true, Bool.not_eq_true', Option.some.injEq,
      exists_eq_left', false_or, reduceCtorEq]
    constructor
    · rintro (h | h)
      · exact hempty h
      · exact h
    · exact fun h => Or.inr h

/-- The call after a response has arrived: what `apiCall` does with each kind of
response. -/
theorem apiCall_of_response {B J : Type} (br : Browser B J) (endpoint method : String)
    (body : Option B) (pg : Page J) (reqBody : Option String) (res : Response)
    (hreq : requestBody br body = .ok reqBody)
    (hfetch : br.fetch (mkRequest endpoint method reqBody) = .ok res) :
    apiCall br endpoint method body pg =
      if nonJsonResponse res.contentType then
        match res.body with
        | .error err =>
          (none, showResponse br (.errorObject err) true
            ((pg.log (.fetch (mkRequest endpoint method reqBody))).log .text))
        | .ok text =>
          (none, showResponse br (.errorObject (serverErrorMessage res)) true
            (((pg.log (.fetch (mkRequest endpoint method reqBody))).log .text).log
              (.consoleError "Non-JSON response:" text)))
      else
        match res.body.bind br.parse with
        | .error err =>
          (none, showResponse br (.errorObject err) true
            ((pg.log (.fetch (mkRequest endpoint method reqBody))).log .json))
        | .ok data =>
          if res.ok then
            (some data, showResponse br (.json data) false
              ((pg.log (.fetch (mkRequest endpoint method reqBody))).log .json))
          else
            (none, showResponse br (.json data) true
              ((pg.log (.fetch (mkRequest endpoint method reqBody))).log .json)) := by
  unfold apiCall apiCallTry
  simp only [hreq, hfetch]
  by_cases hct : nonJsonResponse res.contentType = true
  · simp only [hct, if_true]
    cases res.body <;> rfl
  · simp only [hct]
    cases res.body.bind br.parse with
    | error err => rfl
    | ok data => cases hok : res.ok <;> simp

/-- The call when serialising the request body throws. -/
theorem apiCall_of_build_error {B J : Type} (br : Browser B J) (endpoint method : String)
    (body : Option B) (pg : Page J) (message : String)
    (hreq : requestBody br body = .error message) :
    apiCall br endpoint method body pg
      = (none, showResponse br (.errorObject message) true pg) := by
  unfold apiCall apiCallTry
  simp only [hreq]

/-- The call when `fetch` rejects. -/
theorem apiCall_of_fetch_error {B J : Type} (br : Browser B J) (endpoint method : String)
    (body : Option B) (pg : Page J) (reqBody : Option String) (message : String)
    (hreq : requestBody br body = .ok reqBody)
    (hfetch : br.fetch (mkRequest endpoint method reqBody) = .error message) :
    apiCall br endpoint method body pg
      = (none, showResponse br (.errorObject message) true
          (pg.log (.fetch (mkRequest endpoint method reqBody)))) := by
  unfold apiCall apiCallTry
  simp only [hreq, hfetch]

/-- The effects added by a call are what was appended to the record. -/
theorem eventsSince_append {J : Type} (before new : List (Event J)) (out : Output) :
    eventsSince before { output := out, events := before ++ new } = new := by
  simp [eventsSince]

/-- C2 as stated fails: the sample backend answers `/dropped` with status 200 and
content-type `text/html`, and reading the body is rejected with the message
`network error`.  The call returns `null` and renders an error, but what it
renders is the message of the failed read; no render carries the status 200 and
the status text. -/
theorem unreadable_html_body_hides_status :
    nonJsonResponse (some "text/html") = true
    ∧ (apiCall sampleApi "/dropped" "GET" none (blankPage FlatObject)).1 = none
    ∧ (apiCall sampleApi "/dropped" "GET" none (blankPage FlatObject)).2.output
        = { textContent :=
              "\x7b\n  \"error\": \"Network/Server Error\",\n  \"details\": \"network error\"\n\x7d",
            className := "error" }
    ∧ (apiCall sampleApi "/dropped" "GET" none (blankPage FlatObject)).2.events
        = [.fetch (mkRequest "/dropped" "GET" none), .text,
           .showResponse (.errorObject "network error") true]
    ∧ Event.showResponse
          (.errorObject (serverErrorMessage ⟨200, "OK", some "text/html", .error "network error"⟩))
          true
        ∉ (apiCall sampleApi "/dropped" "GET" none (blankPage FlatObject)).2.events := by
  decide

/-- C2, amended: when the response's content-type header is absent or does not
contain `application/json`, whatever the status, `apiCall` returns `null`,
leaves the error style set and never calls `res.json()`; when the body text can
be read, the one render shows the error object whose details are
`Server Error (<status>): <statusText>`; when reading the body is rejected, the
one render shows the message of that rejection instead. -/
theorem apiCall_nonJson {B J : Type} (br : Browser B J) (endpoint method : String)
    (body : Option B) (pg : Page J) (reqBody : Option String) (res : Response)
    (hreq : requestBody br body = .ok reqBody)
    (hfetch : br.fetch (mkRequest endpoint method reqBody) = .ok res)
    (hct : nonJsonResponse res.contentType = true) :
    (apiCall br endpoint method body pg).1 = none
    ∧ (apiCall br endpoint method body pg).2.output.className = "error"
    ∧ Event.json ∉ eventsSince pg.events (apiCall br endpoint method body pg).2
    ∧ (∀ text, res.body = .ok text →
        (apiCall br endpoint method body pg).2.output.textContent
            = br.pretty (.errorObject (serverErrorMessage res))
        ∧ eventsSince pg.events (apiCall br endpoint method body pg).2
            = [.fetch (mkRequest endpoint method reqBody), .text,
               .consoleError "Non-JSON response:" text,
               .showResponse (.errorObject (serverErrorMessage res)) true])
    ∧ (∀ err, res.body = .error err →
        (apiCall br endpoint method body pg).2.output.textContent
            = br.pretty (.errorObject err)
        ∧ eventsSince pg.events (apiCall br endpoint method body pg).2
            = [.fetch (mkRequest endpoint method reqBody), .text,
               .showResponse (.errorObject err) true]) := by
  rw [apiCall_of_response br endpoint method body pg reqBody res hreq hfetch]
  simp only [hct, if_true]
  cases hb : res.body with
  | error err => simp [showResponse, Page.log, eventsSince]
  | ok text => simp [showResponse, Page.log, eventsSince]

/-- C2 at a concrete input: `/missing` answers 404 with an HTML page. -/
theorem apiCall_nonJson_witness :
    (apiCall sampleApi "/missing" "GET" none (blankPage FlatObject)).1 = none
    ∧ (apiCall sampleApi "/missing" "GET" none (blankPage FlatObject)).2.output.className
        = "error"
    ∧ (apiCall sampleApi "/missing" "GET" none (blankPage FlatObject)).2.output.textContent
        = "\x7b\n  \"error\": \"Network/Server Error\",\n  \"details\": \"Server Error (404): Not Found\"\n\x7d" :=
  have h := apiCall_nonJson sampleApi "/missing" "GET" none (blankPage FlatObject) none
    ⟨404, "Not Found", some "text/html", .ok "<html>Not Found</html>"⟩ rfl rfl (by decide)
  ⟨h.1, h.2.1, (h.2.2.2.1 "<html>Not Found</html>" rfl).1⟩

/-- C3: for a response with a JSON content-type and a status outside 200-299
whose body parses to `d`, `apiCall` returns `null` and renders `d` itself with
the error style set: the output text is the pretty-printed `d`, and the call's
only render is `showResponse(d, true)`. -/
theorem apiCall_apiError {B J : Type} (br : Browser B J) (endpoint method : String)
    (body : Option B) (pg : Page J) (reqBody : Option String) (res : Response)
    (text : String) (d : J)
    (hreq : requestBody br body = .ok reqBody)
    (hfetch : br.fetch (mkRequest endpoint method reqBody) = .ok res)
    (hct : nonJsonResponse res.contentType = false)
    (hstatus : ¬ (200 ≤ res.status ∧ res.status ≤ 299))
    (hbody : res.body = .ok text) (hparse : br.parse text = .ok d) :
    apiCall br endpoint method body pg
      = (none,
         { output := { textContent := br.pretty (.json d), className := "error" },
           events := pg.events ++
             [.fetch (mkRequest endpoint method reqBody), .json,
              .showResponse (.json d) true] }) := by
  rw [apiCall_of_response br endpoint method body pg reqBody res hreq hfetch]
  have hok : res.ok = false := by
    simp only [Response.ok, Bool.and_eq_false_iff, decide_eq_false_iff_not]
    by_cases h : 200 ≤ res.status
    · exact Or.inr (fun h2 => hstatus ⟨h, h2⟩)
    · exact Or.inl h
  simp [hct, hbody, Except.bind, hparse, hok, showResponse, Page.log]

/-- C3 at a concrete input: `/create-loan` answers 400 with the JSON body
`{"error": "invalid"}`. -/
theorem apiCall_apiError_witness :
    apiCall sampleApi "/create-loan" "POST" (some (.flat [("loan_amount", "x")]))
        (blankPage FlatObject)
      = (none,
         { output := { textContent := "\x7b\n  \"error\": \"invalid\"\n\x7d",
                       className := "error" },
           events :=
             [.fetch (mkRequest "/create-loan" "POST"
                (some "\x7b\n  \"loan_amount\": \"x\"\n\x7d")), .json,
              .showResponse (.json [("error", "invalid")]) true] }) :=
  apiCall_apiError sampleApi "/create-loan" "POST" (some (.flat [("loan_amount", "x")]))
    (blankPage FlatObject) (some "\x7b\n  \"loan_amount\": \"x\"\n\x7d")
    ⟨400, "Bad Request", some "application/json; charset=utf-8", .ok "invalid"⟩
    "invalid" [("error", "invalid")] rfl rfl (by decide) (by decide) rfl rfl

/-- C4: for a response with a JSON content-type and a status in 200-299 whose
body parses to `d`, `apiCall` returns `d` and renders `d` with the error style
cleared: the output text is the pretty-printed `d`, the class name is empty, and
the call's only render is `showResponse(d, false)`. -/
theorem apiCall_success {B J : Type} (br : Browser B J) (endpoint method : String)
    (body : Option B) (pg : Page J) (reqBody : Option String) (res : Response)
    (text : String) (d : J)
    (hreq : requestBody br body = .ok reqBody)
    (hfetch : br.fetch (mkRequest endpoint method reqBody) = .ok res)
    (hct : nonJsonResponse res.contentType = false)
    (hstatus : 200 ≤ res.status ∧ res.status ≤ 299)
    (hbody : res.body = .ok text) (hparse : br.parse text = .ok d) :
    apiCall br endpoint method body pg
      = (some d,
         { output := { textContent := br.pretty (.json d), className := "" },
           events := pg.events ++
             [.fetch (mkRequest endpoint method reqBody), .json,
              .showResponse (.json d) false] }) := by
  rw [apiCall_of_response br endpoint method body pg reqBody res hreq hfetch]
  have hok : res.ok = true := by
    simp [Response.ok, hstatus.1, hstatus.2]
  simp [hct, hbody, Except.bind, hparse, hok, showResponse, Page.log]

/-- C4 at a concrete input: `/register` answers 200 with a JSON object. -/
theorem apiCall_success_witness :
    apiCall sampleApi "/register" "POST" (some (.flat [("name", "Ann")]))
        (blankPage FlatObject)
      = (some [("customer_id", "1"), ("name", "Ann")],
         { output :=
             { textContent := "\x7b\n  \"customer_id\": \"1\",\n  \"name\": \"Ann\"\n\x7d",
               className := "" },
           events :=
             [.fetch (mkRequest "/register" "POST" (some "\x7b\n  \"name\": \"Ann\"\n\x7d")),
              .json,
              .showResponse (.json [("customer_id", "1"), ("name", "Ann")]) false] }) :=
  apiCall_success sampleApi "/register" "POST" (some (.flat [("name", "Ann")]))
    (blankPage FlatObject) (some "\x7b\n  \"name\": \"Ann\"\n\x7d")
    ⟨200, "OK", some "application/json", .ok "customer"⟩
    "customer" [("customer_id", "1"), ("name", "Ann")] rfl rfl (by decide) (by decide) rfl rfl

/-- C5: `apiCall` always returns a value, and every exception of its `try` block
is caught: whatever throws with message `m`, the call returns `null` and its
last act is the render `showResponse({error, details: m}, true)`.  This covers
an exception while serialising the request body, a rejected `fetch`, and a
failure of reading or parsing the body of a response declared as JSON. -/
theorem apiCall_catches {B J : Type} (br : Browser B J) (endpoint method : String)
    (body : Option B) (pg : Page J) (m : String) :
    (∀ pg1, apiCallTry br endpoint method body pg = (.error m, pg1) →
        apiCall br endpoint method body pg
          = (none,
             { output := { textContent := br.pretty (.errorObject m), className := "error" },
               events := pg1.events ++ [.showResponse (.errorObject m) true] }))
    ∧ (requestBody br body = .error m →
        apiCall br endpoint method body pg
          = (none,
             { output := { textContent := br.pretty (.errorObject m), className := "error" },
               events := pg.events ++ [.showResponse (.errorObject m) true] }))
    ∧ (∀ reqBody, requestBody br body = .ok reqBody →
        br.fetch (mkRequest endpoint method reqBody) = .error m →
        apiCall br endpoint method body pg
          = (none,
             { output := { textContent := br.pretty (.errorObject m), className := "error" },
               events := pg.events ++
                 [.fetch (mkRequest endpoint method reqBody),
                  .showResponse (.errorObject m) true] }))
    ∧ (∀ reqBody res, requestBody br body = .ok reqBody →
        br.fetch (mkRequest endpoint method reqBody) = .ok res →
        nonJsonResponse res.contentType = false →
        res.body.bind br.parse = .error m →
        apiCall br endpoint method body pg
          = (none,
             { output := { textContent := br.pretty (.errorObject m), className := "error" },
               events := pg.events ++
                 [.fetch (mkRequest endpoint method reqBody), .json,
                  .showResponse (.errorObject m) true] })) := by
  refine ⟨?_, ?_, ?_, ?_⟩
  · intro pg1 h
    unfold apiCall
    rw [h]
    simp [showResponse]
  · intro h
    rw [apiCall_of_build_error br endpoint method body pg m h]
    simp [showResponse]
  · intro reqBody hreq hfetch
    rw [apiCall_of_fetch_error br endpoint method body pg reqBody m hreq hfetch]
    simp [showResponse, Page.log]
  · intro reqBody res hreq hfetch hct hparse
    rw [apiCall_of_response br endpoint method body pg reqBody res hreq hfetch]
    simp [hct, hparse, showResponse, Page.log]

/-- C5 at concrete inputs: a body that cannot be serialised, a connection
failure, and malformed JSON sent with a JSON content-type. -/
theorem apiCall_catches_witness :
    apiCall sampleApi "/register" "POST" (some .cyclic) (blankPage FlatObject)
      = (none,
         { output := { textContent := prettyFlat (.errorObject "Converting circular structure to JSON"),
                       className := "error" },
           events := [.showResponse (.errorObject "Converting circular structure to JSON") true] })
    ∧ apiCall sampleApi "/view-customer/7" "GET" none (blankPage FlatObject)
      = (none,
         { output := { textContent := prettyFlat (.errorObject "Failed to fetch"),
                       className := "error" },
           events := [.fetch (mkRequest "/view-customer/7" "GET" none),
                      .showResponse (.errorObject "Failed to fetch") true] })
    ∧ apiCall sampleApi "/check-eligibility" "GET" none (blankPage FlatObject)
      = (none,
         { output := { textContent :=
                         prettyFlat (.errorObject "Unexpected token < in JSON at position 0"),
                       className := "error" },
           events := [.fetch (mkRequest "/check-eligibility" "GET" none), .json,
                      .showResponse
                        (.errorObject "Unexpected token < in JSON at position 0") true] }) :=
  ⟨(apiCall_catches sampleApi "/register" "POST" (some .cyclic) (blankPage FlatObject)
      "Converting circular structure to JSON").2.1 rfl,
   (apiCall_catches sampleApi "/view-customer/7" "GET" none (blankPage FlatObject)
      "Failed to fetch").2.2.1 none rfl rfl,
   (apiCall_catches sampleApi "/check-eligibility" "GET" none (blankPage FlatObject)
      "Unexpected token < in JSON at position 0").2.2.2 none
      ⟨200, "OK", some "application/json", .ok "<html>"⟩ rfl rfl (by decide) rfl⟩

/-- C6: every invocation of `apiCall` invokes `showResponse` exactly once, as its
last effect: the effects the call adds are some effects that are not renders,
followed by one render. -/
theorem apiCall_renders_once {B J : Type} (br : Browser B J) (endpoint method : String)
    (body : Option B) (pg : Page J) :
    (∃ earlier data isError,
        (apiCall br endpoint method body pg).2.events
            = pg.events ++ earlier ++ [.showResponse data isError]
        ∧ (apiCall br endpoint method body pg).2.output
            = { textContent := br.pretty data,
                className := if isError then "error" else "" }
        ∧ ∀ e ∈ earlier, e.isShow = false)
    ∧ (eventsSince pg.events (apiCall br endpoint method body pg).2).countP Event.isShow = 1 := by
  have key : ∃ earlier data isError,
      (apiCall br endpoint method body pg).2
          = showResponse br data isError { pg with events := pg.events ++ earlier }
      ∧ ∀ e ∈ earlier, e.isShow = false := by
    cases hreq : requestBody br body with
    | error m =>
      rw [apiCall_of_build_error br endpoint method body pg m hreq]
      exact ⟨[], .errorObject m, true, by simp, by simp⟩
    | ok reqBody =>
      cases hfetch : br.fetch (mkRequest endpoint method reqBody) with
      | error m =>
        rw [apiCall_of_fetch_error br endpoint method body pg reqBody m hreq hfetch]
        exact ⟨[.fetch (mkRequest endpoint method reqBody)], .errorObject m, true,
          by simp [Page.log], by simp [Event.isShow]⟩
      | ok res =>
        rw [apiCall_of_response br endpoint method body pg reqBody res hreq hfetch]
        by_cases hct : nonJsonResponse res.contentType = true
        · simp only [hct, if_true]
          cases res.body with
          | error err =>
            exact ⟨[.fetch (mkRequest endpoint method reqBody), .text], .errorObject err, true,
              by simp [Page.log], by simp [Event.isShow]⟩
          | ok text =>
            exact ⟨[.fetch (mkRequest endpoint method reqBody), .text,
                .consoleError "Non-JSON response:" text],
              .errorObject (serverErrorMessage res), true,
              by simp [Page.log], by simp [Event.isShow]⟩
        · simp only [hct]
          cases res.body.bind br.parse with
          | error err =>
            exact ⟨[.fetch (mkRequest endpoint method reqBody), .json], .errorObject err, true,
              by simp [Page.log], by simp [Event.isShow]⟩
          | ok data =>
            cases res.ok with
            | true =>
              exact ⟨[.fetch (mkRequest endpoint method reqBody), .json], .json data, false,
                by simp [Page.log], by simp [Event.isShow]⟩
            | false =>
              exact ⟨[.fetch (mkRequest endpoint method reqBody), .json], .json data, true,
                by simp [Page.log], by simp [Event.isShow]⟩
  obtain ⟨earlier, data, isError, h, hearlier⟩ := key
  refine ⟨⟨earlier, data, isError, by rw [h]; simp [showResponse],
    by rw [h]; simp [showResponse], hearlier⟩, ?_⟩
  rw [h]
  have hcount : earlier.countP Event.isShow = 0 := by
    rw [List.countP_eq_zero]
    intro e he
    simp [hearlier e he]
  simp [showResponse, eventsSince, List.countP_append, hcount, Event.isShow]

/-! ## Theorems: ListRenderer -/

/-- Appending strings one by one to `a` gives `a` followed by their
concatenation. -/
theorem foldl_append_eq_join (xs : List String) (a : String) :
    xs.foldl (fun r s => r ++ s) a = a ++ String.join xs := by
  induction xs generalizing a with
  | nil => simp [String.join]
  | cons x rest ih =>
    have h1 := ih (a ++ x)
    have h2 := ih ("" ++ x)
    simp only [String.join, List.foldl_cons] at h1 h2 ⊢
    rw [h1, h2, String.append_assoc, String.empty_append]

/-- Appending the blocks one by one gives the concatenation of the blocks, after
what was there. -/
theorem foldl_append_loanItem {N : Type} (fmt : NumberFormat N) (ls : List (LoanRecord N))
    (html : String) :
    ls.foldl (fun html loan => html ++ loanItem fmt loan) html
      = html ++ String.join (ls.map (loanItem fmt)) := by
  rw [← foldl_append_eq_join, List.foldl_map]

/-- What the handler leaves in the list, from what `apiCall` resolved to. -/
theorem viewFormSubmit_loansList {B N : Type} (br : Browser B (List (LoanRecord N)))
    (fmt : NumberFormat N) (custId : String) (st : ViewState N) :
    (viewFormSubmit br fmt custId st).loansList
      = match (apiCall br ("/view-loans/" ++ custId) "GET" none st.page).1 with
        | none => ""
        | some [] => noLoansPlaceholder
        | some (l :: ls) => String.join ((l :: ls).map (loanItem fmt)) := by
  simp only [viewFormSubmit, renderLoansList]
  generalize (apiCall br ("/view-loans/" ++ custId) "GET" none st.page).1 = r
  cases r with
  | none => rfl
  | some ls =>
    cases ls with
    | nil => rfl
    | cons l rest =>
      simp only [List.length_cons, gt_iff_lt, Nat.zero_lt_succ, if_true]
      rw [foldl_append_loanItem, String.empty_append]

/-- A string contains each middle part of a way to split it in three. -/
theorem includes_middle (pre needle post : String) :
    includes (pre ++ needle ++ post) needle = true := by
  unfold includes
  rw [List.any_eq_true]
  refine ⟨needle.toList ++ post.toList, ?_, ?_⟩
  · rw [List.mem_tails]
    exact ⟨pre.toList, by simp [String.toList, String.data_append]⟩
  · simp [List.isPrefixOf_iff_prefix]

/-- Each block shows the four values of its record, each in its place. -/
theorem loanItem_displays {N : Type} (fmt : NumberFormat N) (loan : LoanRecord N) :
    includes (loanItem fmt loan) ("<b>Loan #" ++ fmt.toStr loan.loan_id ++ "</b>") = true
    ∧ includes (loanItem fmt loan)
        ("<span>₹" ++ fmt.toLocaleString loan.loan_amount ++ "</span>") = true
    ∧ includes (loanItem fmt loan)
        ("<span>" ++ fmt.toStr loan.interest_rate ++ "% Rate</span>") = true
    ∧ includes (loanItem fmt loan)
        ("<span>₹" ++ fmt.toLocaleString loan.monthly_installment ++ "/mo</span>") = true := by
  refine ⟨?_, ?_, ?_, ?_⟩
  · have h : loanItem fmt loan
        = "\n                <div class=\"loan-item\">\n                    <div>"
          ++ ("<b>Loan #" ++ fmt.toStr loan.loan_id ++ "</b>")
          ++ (" <span style=\"margin: 0 5px\">•</span> <span>₹"
            ++ fmt.toLocaleString loan.loan_amount
            ++ "</span></div>\n                    <div><span>"
            ++ fmt.toStr loan.interest_rate
            ++ "% Rate</span> <span style=\"margin: 0 5px\">•</span> <span>₹"
            ++ fmt.toLocaleString loan.monthly_installment
            ++ "/mo</span></div>\n                </div>\n            ") := by
      apply String.ext
      simp only [loanItem, String.data_append, List.append_assoc]
      rfl
    rw [h]
    exact includes_middle _ _ _
  · have h : loanItem fmt loan
        = ("\n                <div class=\"loan-item\">\n                    <div><b>Loan #"
            ++ fmt.toStr loan.loan_id
            ++ "</b> <span style=\"margin: 0 5px\">•</span> ")
          ++ ("<span>₹" ++ fmt.toLocaleString loan.loan_amount ++ "</span>")
          ++ ("</div>\n                    <div><span>"
            ++ fmt.toStr loan.interest_rate
            ++ "% Rate</span> <span style=\"margin: 0 5px\">•</span> <span>₹"
            ++ fmt.toLocaleString loan.monthly_installment
            ++ "/mo</span></div>\n                </div>\n            ") := by
      apply String.ext
      simp only [loanItem, String.data_append, List.append_assoc]
      rfl
    rw [h]
    exact includes_middle _ _ _
  · have h : loanItem fmt loan
        = ("\n                <div class=\"loan-item\">\n                    <div><b>Loan #"
            ++ fmt.toStr loan.loan_id
            ++ "</b> <span style=\"margin: 0 5px\">•</span> <span>₹"
            ++ fmt.toLocaleString loan.loan_amount
            ++ "</span></div>\n                    <div>")
          ++ ("<span>" ++ fmt.toStr loan.interest_rate ++ "% Rate</span>")
          ++ (" <span style=\"margin: 0 5px\">•</span> <span>₹"
            ++ fmt.toLocaleString loan.monthly_installment
            ++ "/mo</span></div>\n                </div>\n            ") := by
      apply String.ext
      simp only [loanItem, String.data_append, List.append_assoc]
      rfl
    rw [h]
    exact includes_middle _ _ _
  · have h : loanItem fmt loan
        = ("\n                <div class=\"loan-item\">\n                    <div><b>Loan #"
            ++ fmt.toStr loan.loan_id
            ++ "</b> <span style=\"margin: 0 5px\">•</span> <span>₹"
            ++ fmt.toLocaleString loan.loan_amount
            ++ "</span></div>\n                    <div><span>"
            ++ fmt.toStr loan.interest_rate
            ++ "% Rate</span> <span style=\"margin: 0 5px\">•</span> ")
          ++ ("<span>₹" ++ fmt.toLocaleString loan.monthly_installment ++ "/mo</span>")
          ++ "</div>\n                </div>\n            " := by
      apply String.ext
      simp only [loanItem, String.data_append, List.append_assoc]
      rfl
    rw [h]
    exact includes_middle _ _ _

/-- C7 as stated fails: the sample backend answers `/view-loans/3` with a 404
HTML page, so `apiCall` returns `null`; the list held `<div>old</div>` before the
submission and is empty after it. -/
theorem failed_lookup_clears_list :
    (apiCall sampleLoansApi ("/view-loans/" ++ "3") "GET" (none : Option SampleBody)
        (blankPage (List (LoanRecord Nat)))).1 = none
    ∧ (viewFormSubmit sampleLoansApi wholeNumbers "3"
        { page := blankPage (List (LoanRecord Nat)), loansList := "<div>old</div>" }).loansList
        = ""
    ∧ (viewFormSubmit sampleLoansApi wholeNumbers "3"
        { page := blankPage (List (LoanRecord Nat)), loansList := "<div>old</div>" }).loansList
        ≠ "<div>old</div>" := by
  decide

/-- C7, amended: when the view-loans call returns `null`, the handler leaves the
loans list empty, whatever it held before: the list is cleared at line 97 before
the result is looked at, and nothing is written to it afterwards. -/
theorem viewFormSubmit_failure {B N : Type} (br : Browser B (List (LoanRecord N)))
    (fmt : NumberFormat N) (custId : String) (st : ViewState N)
    (hnull : (apiCall br ("/view-loans/" ++ custId) "GET" none st.page).1 = none) :
    (viewFormSubmit br fmt custId st).loansList = "" := by
  rw [viewFormSubmit_loansList, hnull]

/-- C7 amended, at a concrete input: a list showing an earlier record is empty
after a failed lookup. -/
theorem viewFormSubmit_failure_witness :
    (viewFormSubmit sampleLoansApi wholeNumbers "3"
        { page := blankPage (List (LoanRecord Nat)),
          loansList := loanItem wholeNumbers sampleLoan }).loansList = "" :=
  viewFormSubmit_failure sampleLoansApi wholeNumbers "3"
    { page := blankPage (List (LoanRecord Nat)), loansList := loanItem wholeNumbers sampleLoan }
    (by decide)

/-- C8: when the view-loans call returns a non-empty sequence `ls` of loan
records, the list afterwards is the concatenation of one block per record, in
the order received, and holds nothing of its prior content; there are as many
blocks as records, the i-th block is built from the i-th record, and each block
shows its record's `loan_id`, its grouped `loan_amount`, its `interest_rate` and
its grouped `monthly_installment`. -/
theorem viewFormSubmit_blocks {B N : Type} (br : Browser B (List (LoanRecord N)))
    (fmt : NumberFormat N) (custId : String) (st : ViewState N)
    (ls : List (LoanRecord N))
    (hloans : (apiCall br ("/view-loans/" ++ custId) "GET" none st.page).1 = some ls)
    (hne : ls ≠ []) :
    (viewFormSubmit br fmt custId st).loansList = String.join (ls.map (loanItem fmt))
    ∧ (ls.map (loanItem fmt)).length = ls.length
    ∧ (∀ i : Nat, (ls.map (loanItem fmt))[i]? = ls[i]?.map (loanItem fmt))
    ∧ ∀ loan ∈ ls,
        includes (loanItem fmt loan) ("<b>Loan #" ++ fmt.toStr loan.loan_id ++ "</b>") = true
        ∧ includes (loanItem fmt loan)
            ("<span>₹" ++ fmt.toLocaleString loan.loan_amount ++ "</span>") = true
        ∧ includes (loanItem fmt loan)
            ("<span>" ++ fmt.toStr loan.interest_rate ++ "% Rate</span>") = true
        ∧ includes (loanItem fmt loan)
            ("<span>₹" ++ fmt.toLocaleString loan.monthly_installment ++ "/mo</span>")
            = true := by
  refine ⟨?_, by simp, fun i => by simp, fun loan _ => loanItem_displays fmt loan⟩
  rw [viewFormSubmit_loansList, hloans]
  cases ls with
  | nil => exact absurd rfl hne
  | cons l rest => rfl

set_option maxRecDepth 100000

/-- C8 at a concrete input: customer 1 has one loan, and the list that showed
`old` shows exactly that loan's block. -/
theorem viewFormSubmit_blocks_witness :
    (viewFormSubmit sampleLoansApi wholeNumbers "1"
        { page := blankPage (List (LoanRecord Nat)), loansList := "old" }).loansList
      = "\n                <div class=\"loan-item\">\n                    <div><b>Loan #1</b> <span style=\"margin: 0 5px\">•</span> <span>₹50,000</span></div>\n                    <div><span>9% Rate</span> <span style=\"margin: 0 5px\">•</span> <span>₹4,200/mo</span></div>\n                </div>\n            " :=
  (viewFormSubmit_blocks sampleLoansApi wholeNumbers "1"
    { page := blankPage (List (LoanRecord Nat)), loansList := "old" } [sampleLoan]
    (by decide) (by decide)).1.trans (by decide)

/-- C9: when the view-loans call returns a present, empty sequence, the list
afterwards holds exactly the placeholder message, whatever it held before. -/
theorem viewFormSubmit_empty {B N : Type} (br : Browser B (List (LoanRecord N)))
    (fmt : NumberFormat N) (custId : String) (st : ViewState N)
    (hempty : (apiCall br ("/view-loans/" ++ custId) "GET" none st.page).1 = some []) :
    (viewFormSubmit br fmt custId st).loansList
      = "<p style=\"color: #71717a; text-align: center;\">No active loans found</p>" := by
  rw [viewFormSubmit_loansList, hempty]
  rfl

/-- C9 at a concrete input: customer 2 has no loans (status 200, body `[]`), and
a list that showed an earlier record shows the placeholder. -/
theorem viewFormSubmit_empty_witness :
    (viewFormSubmit sampleLoansApi wholeNumbers "2"
        { page := blankPage (List (LoanRecord Nat)),
          loansList := loanItem wholeNumbers sampleLoan }).loansList
      = "<p style=\"color: #71717a; text-align: center;\">No active loans found</p>" :=
  viewFormSubmit_empty sampleLoansApi wholeNumbers "2"
    { page := blankPage (List (LoanRecord Nat)), loansList := loanItem wholeNumbers sampleLoan }
    (by decide)

/-! ## Theorems: TabController -/

/-- Removing `active` from the elements of one role changes no other attribute. -/
theorem removeActive_attrs (r : Role) (doc : Document) :
    (removeActive r doc).map Element.attrs = doc.map Element.attrs := by
  unfold removeActive
  rw [List.map_map]
  apply List.map_congr_left
  intro e _
  by_cases h : e.role = r <;> simp [h, Element.attrs]

/-- Adding `active` to one element changes no other attribute. -/
theorem addActive_attrs (i : Nat) (doc : Document) :
    (addActive i doc).map Element.attrs = doc.map Element.attrs := by
  induction doc generalizing i with
  | nil => cases i <;> rfl
  | cons e es ih =>
    cases i with
    | zero => simp [addActive, Element.attrs]
    | succ j => simp [addActive, ih j]

/-- The element at a position after removing `active` from one role. -/
theorem removeActive_getElem (r : Role) (doc : Document) (k : Nat) :
    (removeActive r doc)[k]?
      = doc[k]?.map (fun e => if e.role = r then { e with active := false } else e) := by
  unfold removeActive
  rw [List.getElem?_map]

/-- The element at a position after adding `active` at position `i`. -/
theorem addActive_getElem (i : Nat) (doc : Document) (k : Nat) :
    (addActive i doc)[k]?
      = doc[k]?.map (fun e => if k = i then { e with active := true } else e) := by
  induction doc generalizing i k with
  | nil => cases i <;> simp [addActive]
  | cons e es ih =>
    cases i with
    | zero =>
      cases k with
      | zero => simp [addActive]
      | succ k => simp [addActive]
    | succ j =>
      cases k with
      | zero => simp [addActive]
      | succ k => simp [addActive, ih j k]

/-- The element found by id depends on the unchanging attributes only. -/
theorem firstWithId_congr (d1 d2 : Document) (id : String)
    (h : d1.map Element.attrs = d2.map Element.attrs) :
    firstWithId d1 id = firstWithId d2 id := by
  induction d1 generalizing d2 with
  | nil =>
    cases d2 with
    | nil => rfl
    | cons e es => simp at h
  | cons e1 es1 ih =>
    cases d2 with
    | nil => simp at h
    | cons e2 es2 =>
      simp only [List.map_cons, List.cons.injEq] at h
      have hid : e1.id = e2.id := by
        have := congrArg (fun t => t.2.1) h.1
        simpa [Element.attrs] using this
      simp [firstWithId, hid, ih es2 h.2]

/-- The call `getElementById` depends on the unchanging attributes only. -/
theorem getElementById_congr (d1 d2 : Document) (id : String)
    (h : d1.map Element.attrs = d2.map Element.attrs) :
    getElementById d1 id = getElementById d2 id := by
  unfold getElementById
  rw [firstWithId_congr d1 d2 id h]

/-- A click changes none of the unchanging attributes. -/
theorem tabClick_attrs (doc : Document) (i : Nat) :
    (tabClick doc i).1.map Element.attrs = doc.map Element.attrs := by
  unfold tabClick
  cases doc[i]? with
  | none => rfl
  | some tab =>
    by_cases hr : tab.role = Role.tab
    · simp only [hr, if_true]
      cases getElementById (addActive i (removeActive Role.panel (removeActive Role.tab doc)))
          (datasetTab tab) with
      | none => simp [addActive_attrs, removeActive_attrs]
      | some j => simp [addActive_attrs, removeActive_attrs]
    · simp [hr]

/-- A sequence of clicks changes none of the unchanging attributes. -/
theorem tabClicks_attrs (doc : Document) (clicks : List Nat) :
    (tabClicks doc clicks).map Element.attrs = doc.map Element.attrs := by
  induction clicks generalizing doc with
  | nil => rfl
  | cons i rest ih =>
    simp only [tabClicks]
    rw [ih, tabClick_attrs]

/-- Documents with the same unchanging attributes have, at each position,
elements with the same unchanging attributes. -/
theorem attrs_getElem (d1 d2 : Document) (h : d1.map Element.attrs = d2.map Element.attrs)
    (k : Nat) (e2 : Element) (h2 : d2[k]? = some e2) :
    ∃ e1, d1[k]? = some e1 ∧ e1.attrs = e2.attrs := by
  have hk := congrArg (fun l => l[k]?) h
  simp only [List.getElem?_map, h2, Option.map_some'] at hk
  cases h1 : d1[k]? with
  | none => rw [h1] at hk; simp at hk
  | some e1 =>
    rw [h1] at hk
    simp only [Option.map_some', Option.some.injEq] at hk
    exact ⟨e1, rfl, hk⟩

/-- A sequence of clicks followed by one more click. -/
theorem tabClicks_append (doc : Document) (clicks : List Nat) (i : Nat) :
    tabClicks doc (clicks ++ [i]) = (tabClick (tabClicks doc clicks) i).1 := by
  induction clicks generalizing doc with
  | nil => rfl
  | cons j rest ih => exact ih (tabClick doc j).1

/-- A click on a tab whose `data-tab` names an element: the four steps of the
listener, and no error. -/
theorem tabClick_of_target (d : Document) (b p : Nat) (tab : Element)
    (hb : d[b]? = some tab) (hr : tab.role = Role.tab)
    (hp : getElementById d (datasetTab tab) = some p) :
    tabClick d b
      = (addActive p (addActive b (removeActive Role.panel (removeActive Role.tab d))),
         none) := by
  unfold tabClick
  rw [hb]
  simp only [hr, if_true]
  have hattrs : (addActive b (removeActive Role.panel (removeActive Role.tab d))).map
      Element.attrs = d.map Element.attrs := by
    rw [addActive_attrs, removeActive_attrs, removeActive_attrs]
  rw [getElementById_congr _ d _ hattrs, hp]

/-- The element at each position after the four steps of the listener. -/
theorem selected_getElem (d : Document) (b p k : Nat) :
    (addActive p (addActive b (removeActive Role.panel (removeActive Role.tab d))))[k]?
      = d[k]?.map (fun e =>
          { e with active :=
              if k = p ∨ k = b then true
              else if e.role = Role.tab ∨ e.role = Role.panel then false
              else e.active }) := by
  rw [addActive_getElem, addActive_getElem, removeActive_getElem, removeActive_getElem]
  cases d[k]? with
  | none => rfl
  | some e =>
    simp only [Option.map_some', Option.some.injEq]
    obtain ⟨role, id, dataTab, active⟩ := e
    cases role <;> by_cases hp : k = p <;> by_cases hb : k = b <;> simp_all

/-- C10: let `A` and `B` be distinct tabs of the document, `B` naming through
`data-tab` a panel at position `p`.  After any earlier clicks (so whichever tab
is active, `A` included), a click on `B` throws nothing and leaves `B` the only
active tab and `B`'s panel the only active panel: `A` is inactive, and so is
`A`'s panel when it is not also `B`'s.  As this holds after every sequence of
clicks ending with `B`, the active tab and the active panel are always those of
the last selection. -/
theorem tabClick_selects (doc : Document) (earlier : List Nat) (a b p : Nat)
    (tabA tabB panelB : Element)
    (hA : doc[a]? = some tabA) (hAtab : tabA.role = Role.tab)
    (hB : doc[b]? = some tabB) (hBtab : tabB.role = Role.tab)
    (hAB : a ≠ b)
    (hp : getElementById doc (datasetTab tabB) = some p)
    (hP : doc[p]? = some panelB) (hPpanel : panelB.role = Role.panel) :
    (tabClick (tabClicks doc earlier) b).2 = none
    ∧ (∀ (k : Nat) (e : Element), (tabClicks doc (earlier ++ [b]))[k]? = some e →
        e.role = Role.tab → (e.active = true ↔ k = b))
    ∧ (∀ (k : Nat) (e : Element), (tabClicks doc (earlier ++ [b]))[k]? = some e →
        e.role = Role.panel → (e.active = true ↔ k = p))
    ∧ (∃ e, (tabClicks doc (earlier ++ [b]))[b]? = some e
        ∧ e.role = Role.tab ∧ e.active = true)
    ∧ (∃ e, (tabClicks doc (earlier ++ [b]))[p]? = some e
        ∧ e.role = Role.panel ∧ e.active = true)
    ∧ (∃ e, (tabClicks doc (earlier ++ [b]))[a]? = some e
        ∧ e.role = Role.tab ∧ e.active = false)
    ∧ (∀ (q : Nat) (panelA : Element), getElementById doc (datasetTab tabA) = some q →
        doc[q]? = some panelA → panelA.role = Role.panel → q ≠ p →
        ∃ e, (tabClicks doc (earlier ++ [b]))[q]? = some e
          ∧ e.role = Role.panel ∧ e.active = false) := by
  have hattrs := tabClicks_attrs doc earlier
  -- the elements at `a`, `b`, `p` in the state reached by the earlier clicks
  obtain ⟨tb, htb, htbA⟩ := attrs_getElem (tabClicks doc earlier) doc hattrs b tabB hB
  obtain ⟨ta, hta, htaA⟩ := attrs_getElem (tabClicks doc earlier) doc hattrs a tabA hA
  obtain ⟨pp, hpp, hppA⟩ := attrs_getElem (tabClicks doc earlier) doc hattrs p panelB hP
  have htbRole : tb.role = Role.tab := by
    have := congrArg (fun t => t.1) htbA
    simpa [Element.attrs, hBtab] using this
  have htaRole : ta.role = Role.tab := by
    have := congrArg (fun t => t.1) htaA
    simpa [Element.attrs, hAtab] using this
  have hppRole : pp.role = Role.panel := by
    have := congrArg (fun t => t.1) hppA
    simpa [Element.attrs, hPpanel] using this
  have hkey : datasetTab tb = datasetTab tabB := by
    have := congrArg (fun t => t.2.2) htbA
    simp only [Element.attrs] at this
    simp [datasetTab, this]
  have hp2 : getElementById (tabClicks doc earlier) (datasetTab tb) = some p := by
    rw [hkey, getElementById_congr _ doc _ hattrs, hp]
  have hclick := tabClick_of_target (tabClicks doc earlier) b p tb htb htbRole hp2
  have hbp : b ≠ p := by
    intro h
    rw [h, hpp] at htb
    have : pp = tb := Option.some.inj htb
    rw [this, htbRole] at hppRole
    exact absurd hppRole (by decide)
  rw [tabClicks_append, hclick]
  simp only [selected_getElem]
  refine ⟨trivial, ?_, ?_, ?_, ?_, ?_, ?_⟩
  · intro k e hk hrole
    cases hd : (tabClicks doc earlier)[k]? with
    | none => rw [hd] at hk; simp at hk
    | some e0 =>
      rw [hd] at hk
      simp only [Option.map_some', Option.some.injEq] at hk
      subst hk
      simp only at hrole ⊢
      have hkp : k ≠ p := by
        intro h
        rw [h, hpp] at hd
        have : pp = e0 := Option.some.inj hd
        rw [this, hrole] at hppRole
        exact absurd hppRole (by decide)
      by_cases hkb : k = b <;> simp [hkp, hkb, hrole]
  · intro k e hk hrole
    cases hd : (tabClicks doc earlier)[k]? with
    | none => rw [hd] at hk; simp at hk
    | some e0 =>
      rw [hd] at hk
      simp only [Option.map_some', Option.some.injEq] at hk
      subst hk
      simp only at hrole ⊢
      have hkb : k ≠ b := by
        intro h
        rw [h, htb] at hd
        have : tb = e0 := Option.some.inj hd
        rw [this, hrole] at htbRole
        exact absurd htbRole (by decide)
      by_cases hkp : k = p <;> simp [hkp, hkb, hrole]
  · exact ⟨{ tb with active := true }, by rw [htb]; simp, htbRole, rfl⟩
  · exact ⟨{ pp with active := true }, by rw [hpp]; simp, hppRole, rfl⟩
  · have hap : a ≠ p := by
      intro h
      rw [h, hpp] at hta
      have : pp = ta := Option.some.inj hta
      rw [this, htaRole] at hppRole
      exact absurd hppRole (by decide)
    exact ⟨{ ta with active := false }, by rw [hta]; simp [hap, hAB, htaRole], htaRole, rfl⟩
  · intro q panelA _ hq hqRole hqp
    obtain ⟨pq, hpq, hpqA⟩ := attrs_getElem (tabClicks doc earlier) doc hattrs q panelA hq
    have hpqRole : pq.role = Role.panel := by
      have := congrArg (fun t => t.1) hpqA
      simpa [Element.attrs, hqRole] using this
    have hqb : q ≠ b := by
      intro h
      rw [h, htb] at hpq
      have : tb = pq := Option.some.inj hpq
      rw [this, hpqRole] at htbRole
      exact absurd htbRole (by decide)
    exact ⟨{ pq with active := false }, by rw [hpq]; simp [hqp, hqb, hpqRole], hpqRole, rfl⟩

/-- C10 at a concrete input: in the sample document the first tab is active; a
click on the second tab throws nothing and leaves the second tab and the
`eligibility` panel active and nothing else. -/
theorem tabClick_selects_witness :
    (tabClick (tabClicks sampleDocument []) 1).2 = none
    ∧ tabClicks sampleDocument ([] ++ [1])
      = [ { role := .tab, id := none, dataTab := some "register", active := false },
          { role := .tab, id := none, dataTab := some "eligibility", active := true },
          { role := .tab, id := none, dataTab := some "view", active := false },
          { role := .panel, id := some "register", dataTab := none, active := false },
          { role := .panel, id := some "eligibility", dataTab := none, active := true },
          { role := .panel, id := some "view", dataTab := none, active := false },
          { role := .other, id := some "output", dataTab := none, active := false } ] :=
  ⟨(tabClick_selects sampleDocument [] 0 1 4
      { role := .tab, id := none, dataTab := some "register", active := true }
      { role := .tab, id := none, dataTab := some "eligibility", active := false }
      { role := .panel, id := some "eligibility", dataTab := none, active := false }
      rfl rfl rfl rfl (by decide) (by decide) rfl rfl).1,
   by decide⟩

end Alemeno
